import Mathlib

/-!
Shallow embedding of the retrieval-native benchmark core: the
deterministic repository lookup tool of repo_tool.py, the snippet
deduplication tracker and reference-mode prompt builder of
agent_driver.py, and the metrics aggregation and compute-boundary
diagnostic of compare_runner.py, together with theorems about the
properties stated for them in the design documentation.

Modelling conventions: Python strings are lists of unicode code
points (List Char); Python floats used for metric arithmetic are
rationals; dict records with optional keys are structures with
Option fields.  The SHA-256 hex digest and the two regular-expression
matchers used by function and class extraction are abstracted as
parameters, so every theorem holds for an arbitrary digest function
and an arbitrary regex-match oracle.
-/

namespace RetrievalBench

/-- Python strings, modelled as sequences of unicode code points. -/
abbrev PyStr := List Char

/-- Whitespace characters stripped by the Python str.strip method
(ASCII subset; further unicode whitespace is not modelled). -/
def pyIsSpace (c : Char) : Bool :=
  c = ' ' || c = '\t' || c = '\n' || c = '\r' || c = '\x0b' || c = '\x0c'

/-- Python str.strip: remove leading and trailing whitespace. -/
def pyStrip (s : PyStr) : PyStr :=
  ((s.dropWhile pyIsSpace).reverse.dropWhile pyIsSpace).reverse

/-- Python str.lower (ASCII case folding; unicode folding not modelled). -/
def pyLower (s : PyStr) : PyStr := s.map Char.toLower

/-- Python str.startswith. -/
def pyStartsWith : PyStr → PyStr → Bool
  | [], _ => true
  | _ :: _, [] => false
  | p :: ps, c :: cs => p == c && pyStartsWith ps cs

/-- Python substring containment, the binary in operator on strings. -/
def pyContains : PyStr → PyStr → Bool
  | [], sub => sub.isEmpty
  | c :: t, sub => pyStartsWith sub (c :: t) || pyContains t sub

/-- Python str.endswith. -/
def pyEndsWith (suf s : PyStr) : Bool := pyStartsWith suf.reverse s.reverse

/-- Python str.split on a single separator character: always returns a
nonempty list of segments and keeps empty segments. -/
def splitOnChar (sep : Char) : PyStr → List PyStr
  | [] => [[]]
  | c :: rest =>
    if c = sep then [] :: splitOnChar sep rest
    else
      match splitOnChar sep rest with
      | [] => [[c]]
      | seg :: segs => (c :: seg) :: segs

/-- Decimal rendering of a natural number, as Python str on an int. -/
def natRepr (n : Nat) : PyStr := (Nat.repr n).data

/-- Python str.title on one string: a letter is uppercased when the
previous character is not a letter, lowercased otherwise. -/
def pyTitleAux : Bool → PyStr → PyStr
  | _, [] => []
  | prevAlpha, c :: t =>
    (if prevAlpha then c.toLower else c.toUpper) :: pyTitleAux c.isAlpha t

/-- Python str.title. -/
def pyTitle (s : PyStr) : PyStr := pyTitleAux false s

/-- UTF-8 byte length of one code point. -/
def charUtf8Len (c : Char) : Nat :=
  if c.toNat < 0x80 then 1
  else if c.toNat < 0x800 then 2
  else if c.toNat < 0x10000 then 3
  else 4

/-- Python len on the UTF-8 encoding of a string. -/
def pyUtf8Len (s : PyStr) : Nat := (s.map charUtf8Len).sum

/-- count_tokens from agent_driver.py: byte length of the UTF-8
encoding, integer-divided by 4. -/
def count_tokens (s : PyStr) : Nat := pyUtf8Len s / 4

/-- Lexicographic comparison of Python strings by code point. -/
def pyStrLt : PyStr → PyStr → Bool
  | [], [] => false
  | [], _ :: _ => true
  | _ :: _, [] => false
  | a :: s, b :: t =>
    if a.toNat < b.toNat then true
    else if a = b then pyStrLt s t
    else false

/-- Insert a string into an ascending list, after any equal elements,
matching the stability of the Python sorted builtin. -/
def insertSorted (x : PyStr) : List PyStr → List PyStr
  | [] => [x]
  | y :: ys => if pyStrLt x y then x :: y :: ys else y :: insertSorted x ys

/-- Python sorted on a list of strings. -/
def pySort (l : List PyStr) : List PyStr :=
  l.foldl (fun acc x => insertSorted x acc) []

/-- One file of the content root scanned by the lookup tool.  The list
order of a RepoFS models the deterministic traversal order of rglob. -/
structure RepoFile where
  path : PyStr
  content : PyStr
deriving DecidableEq

/-- The content root: the files below base_dir in traversal order. -/
abbrev RepoFS := List RepoFile

/-- The last component of a path, as Path.name. -/
def baseName (p : PyStr) : PyStr :=
  (p.reverse.takeWhile (fun c => c ≠ '/')).reverse

/-- Maximum snippet size in characters, from repo_tool.py. -/
def MAX_SNIPPET_SIZE : Nat := 2000

/-- Model of load_file: the content of the file at the given path, or
the empty string when it cannot be read (the except branch). -/
def load_file (fs : RepoFS) (p : PyStr) : PyStr :=
  match fs.find? (fun f => f.path == p) with
  | some f => f.content
  | none => []

/-- Model of find_files_by_pattern: files whose name contains the
pattern case-insensitively, paths sorted, at most 5 kept. -/
def find_files_by_pattern (fs : RepoFS) (pat : PyStr) : List PyStr :=
  (pySort ((fs.filter
      (fun f => pyContains (pyLower (baseName f.path)) (pyLower pat))).map
    (fun f => f.path))).take 5

/-- Model of get_snippet_id, parameterized by the digest function:
the first 16 characters of the hex digest of the text. -/
def get_snippet_id (sha256hex : PyStr → PyStr) (text : PyStr) : PyStr :=
  (sha256hex text).take 16

/-- Digits-to-number accumulation used by the int model. -/
def digitsToNat (l : PyStr) : Nat :=
  l.foldl (fun a c => a * 10 + (c.toNat - 48)) 0

/-- Model of the Python int constructor for the strings reachable in
the line-range parse: surrounding whitespace, an optional plus sign,
then a nonempty digit run.  A minus sign never reaches this point
because the split on the dash consumed it; underscore digit grouping
and unicode digits are not modelled. -/
def parsePyNat (s : PyStr) : Option Nat :=
  let t := pyStrip s
  let t2 := match t with
            | '+' :: r => r
            | _ => t
  if t2 ≠ [] ∧ t2.all Char.isDigit then some (digitsToNat t2) else none

/-- The line-range parse of the file query: split on the dash, map
int over the pieces, succeed only with exactly two values; any
failure is the caught ValueError. -/
def parse_line_range (s : PyStr) : Option (Nat × Nat) :=
  match (splitOnChar '-' s).map parsePyNat with
  | [some a, some b] => some (a, b)
  | _ => none

/-- Model of extract_lines: clamp the range to the file, join the
selected lines, truncate to the maximum snippet size. -/
def extract_lines (content : PyStr) (start0 end0 : Nat) : PyStr × Nat × Nat :=
  let lines := splitOnChar '\n' content
  let s := max 1 start0
  let e := min lines.length end0
  let snippet := List.intercalate ['\n'] ((lines.drop (s - 1)).take (e - (s - 1)))
  (snippet.take MAX_SNIPPET_SIZE, s, e)

/-- The two regular-expression matchers of repo_tool.py, abstracted:
given file content and a name, an oracle returns the text of the
first match group and the offset of the match start, or none. -/
structure RegexOracle where
  funcMatch : PyStr → PyStr → Option (PyStr × Nat)
  classMatch : PyStr → PyStr → Option (PyStr × Nat)

/-- Model of extract_function: strip the matched block, compute its
line numbers from the match offset, truncate to the maximum size. -/
def extract_function (m : PyStr → PyStr → Option (PyStr × Nat))
    (content funcName : PyStr) : Option (PyStr × Nat × Nat) :=
  match m content funcName with
  | none => none
  | some (g, off) =>
    let funcText := pyStrip g
    let startLine := (content.take off).count '\n' + 1
    let endLine := startLine + funcText.count '\n'
    some (funcText.take MAX_SNIPPET_SIZE, startLine, endLine)

/-- Model of extract_class, identical in shape to extract_function. -/
def extract_class (m : PyStr → PyStr → Option (PyStr × Nat))
    (content className : PyStr) : Option (PyStr × Nat × Nat) :=
  match m content className with
  | none => none
  | some (g, off) =>
    let classText := pyStrip g
    let startLine := (content.take off).count '\n' + 1
    let endLine := startLine + classText.count '\n'
    some (classText.take MAX_SNIPPET_SIZE, startLine, endLine)

/-- Files visited by rglob on the pattern star-dot-py: name ends in
the python suffix. -/
def isPyFile (f : RepoFile) : Bool := pyEndsWith (".py".data) (baseName f.path)

/-- First file of the scan on which the extractor succeeds, with the
extraction result; models the for-loop with break. -/
def find_extract (files : List RepoFile)
    (ex : PyStr → Option (PyStr × Nat × Nat)) : Option (PyStr × PyStr × Nat × Nat) :=
  match files with
  | [] => none
  | f :: rest =>
    match ex f.content with
    | some (txt, s, e) => some (f.path, txt, s, e)
    | none => find_extract rest ex

/-- One keyword-search hit: path, 1-based line number, context. -/
structure SearchMatch where
  path : PyStr
  line : Nat
  context : PyStr
deriving DecidableEq

/-- Context window of a keyword hit: two lines before through seven
lines after, joined, truncated to 500 characters. -/
def searchContext (lines : List PyStr) (i : Nat) : PyStr :=
  let s := i - 2
  let e := min lines.length (i + 8)
  (List.intercalate ['\n'] ((lines.drop s).take (e - s))).take 500

/-- All keyword hits inside one file, in line order. -/
def matchesInFile (keyword : PyStr) (f : RepoFile) : List SearchMatch :=
  let lines := splitOnChar '\n' f.content
  (List.range lines.length).filterMap (fun i =>
    if pyContains (pyLower (lines.getD i [])) keyword then
      some { path := f.path, line := i + 1, context := searchContext lines i }
    else none)

/-- The keyword-search scan: hits in file order then line order, cut
off at 3, exactly as the double loop with its two breaks. -/
def search_matches (fs : RepoFS) (keyword : PyStr) : List SearchMatch :=
  (((fs.filter isPyFile).map (matchesInFile keyword)).flatten).take 3

/-- The result record of repo_lookup. -/
structure Snippet where
  snippet_id : PyStr
  snippet_text : PyStr
  source_path : PyStr
  line_range : Nat × Nat
  query : PyStr
  token_estimate : Nat
deriving DecidableEq

/-- The common tail of repo_lookup: set the snippet id to the content
hash of the final text and the token estimate to the UTF-8 byte
length divided by 4. -/
def mk_result (sha256hex : PyStr → PyStr) (query0 text path : PyStr)
    (lr : Nat × Nat) : Snippet :=
  { snippet_id := get_snippet_id sha256hex text
    snippet_text := text
    source_path := path
    line_range := lr
    query := query0
    token_estimate := pyUtf8Len text / 4 }

/-- The early-return branch for a missing file: the placeholder text
is hashed for the id but the token estimate is left at 0. -/
def file_not_found_result (sha256hex : PyStr → PyStr) (query0 fname : PyStr) : Snippet :=
  { snippet_id := get_snippet_id sha256hex (("# File not found: ".data) ++ fname)
    snippet_text := ("# File not found: ".data) ++ fname
    source_path := []
    line_range := (0, 0)
    query := query0
    token_estimate := 0 }

/-- Model of repo_lookup from repo_tool.py, parameterized by the
digest function, the regex oracle and the content root. -/
def repo_lookup (sha256hex : PyStr → PyStr) (rx : RegexOracle) (fs : RepoFS)
    (query0 : PyStr) : Snippet :=
  let query := pyStrip query0
  if pyStartsWith ("file:".data) query then
    let parts := splitOnChar ':' (query.drop 5)
    let filename := parts.headD []
    match find_files_by_pattern fs filename with
    | [] => file_not_found_result sha256hex query0 filename
    | filepath :: _ =>
      let content := load_file fs filepath
      let full : PyStr × Nat × Nat :=
        (content.take MAX_SNIPPET_SIZE, 1,
         (content.take MAX_SNIPPET_SIZE).count '\n' + 1)
      let r :=
        if 1 < parts.length then
          if pyContains (parts.getD 1 []) ['-'] then
            match parse_line_range (parts.getD 1 []) with
            | some (s, e) => extract_lines content s e
            | none => full
          else full
        else full
      mk_result sha256hex query0 r.1 filepath r.2
  else if pyStartsWith ("func:".data) query then
    let funcName := pyStrip (query.drop 5)
    match find_extract (fs.filter isPyFile)
        (fun c => extract_function rx.funcMatch c funcName) with
    | some (fpath, txt, s, e) => mk_result sha256hex query0 txt fpath (s, e)
    | none =>
      mk_result sha256hex query0 (("# Function not found: ".data) ++ funcName) [] (0, 0)
  else if pyStartsWith ("class:".data) query then
    let className := pyStrip (query.drop 6)
    match find_extract (fs.filter isPyFile)
        (fun c => extract_class rx.classMatch c className) with
    | some (fpath, txt, s, e) => mk_result sha256hex query0 txt fpath (s, e)
    | none =>
      mk_result sha256hex query0 (("# Class not found: ".data) ++ className) [] (0, 0)
  else if pyStartsWith ("search:".data) query then
    let keyword := pyLower (pyStrip (query.drop 7))
    match search_matches fs keyword with
    | [] => mk_result sha256hex query0 (("# No matches for: ".data) ++ keyword) [] (0, 0)
    | m :: ms =>
      let pieces := (m :: ms).map (fun mm =>
        ("# ".data) ++ mm.path ++ [':'] ++ natRepr mm.line ++ ['\n'] ++ mm.context)
      mk_result sha256hex query0
        ((List.intercalate ("\n\n".data) pieces).take MAX_SNIPPET_SIZE)
        m.path (m.line, m.line + 10)
  else
    mk_result sha256hex query0 (("# Unknown query format: ".data) ++ query) [] (0, 0)

/-- The deduplication tracker of agent_driver.py.  The seen-id set is
modelled as a duplicate-free insertion-ordered list, the id-to-text
dict as an association list. -/
structure SnippetTracker where
  seen_ids : List PyStr
  snippets : List (PyStr × PyStr)
  total_sent : Nat
  reuse_hits : Nat
deriving DecidableEq

/-- A freshly constructed tracker. -/
def SnippetTracker.init : SnippetTracker :=
  { seen_ids := [], snippets := [], total_sent := 0, reuse_hits := 0 }

/-- Model of has_seen.  The Python method is an instance method on
mutable state, so it is modelled in state-passing style: it returns
the membership answer together with the resulting tracker state,
which, as in the source, is the receiver unchanged. -/
def SnippetTracker.has_seen (t : SnippetTracker) (snippet_id : PyStr) :
    Bool × SnippetTracker :=
  (decide (snippet_id ∈ t.seen_ids), t)

/-- Model of record: on an unseen id, insert it, remember its text,
bump total_sent and answer true; on a seen id, bump reuse_hits and
answer false. -/
def SnippetTracker.record (t : SnippetTracker) (snippet_id snippet_text : PyStr) :
    Bool × SnippetTracker :=
  if snippet_id ∈ t.seen_ids then
    (false, { t with reuse_hits := t.reuse_hits + 1 })
  else
    (true,
     { t with
        seen_ids := t.seen_ids ++ [snippet_id]
        snippets := t.snippets ++ [(snippet_id, snippet_text)]
        total_sent := t.total_sent + 1 })

/-- Model of get_reuse_rate: reuse hits over all record calls, 0 when
there have been none. -/
def SnippetTracker.get_reuse_rate (t : SnippetTracker) : ℚ :=
  if t.total_sent + t.reuse_hits = 0 then 0
  else (t.reuse_hits : ℚ) / ((t.total_sent : ℚ) + (t.reuse_hits : ℚ))

/-- One call against the tracker within a session. -/
inductive TrackerOp
  | record (snippet_id snippet_text : PyStr)
  | query (snippet_id : PyStr)
deriving DecidableEq

/-- Whether an operation is a record call. -/
def TrackerOp.isRecordOp : TrackerOp → Bool
  | .record _ _ => true
  | .query _ => false

/-- State transition of one tracker call. -/
def applyOp (t : SnippetTracker) : TrackerOp → SnippetTracker
  | .record i x => (t.record i x).2
  | .query i => (t.has_seen i).2

/-- State after a sequence of tracker calls. -/
def run_ops (t : SnippetTracker) (ops : List TrackerOp) : SnippetTracker :=
  ops.foldl applyOp t

/-- Header line of a newly embedded snippet in treatment mode. -/
def snippet_header_line (l : Snippet) : PyStr :=
  ("### Snippet [".data) ++ l.snippet_id ++ ("]: ".data) ++ l.source_path ++
    (" (lines [".data) ++ natRepr l.line_range.1 ++ (", ".data) ++
    natRepr l.line_range.2 ++ ("])".data)

/-- Fenced code block carrying the full text of a new snippet. -/
def snippet_code_block (text : PyStr) : PyStr :=
  ("```\n".data) ++ text ++ ("\n```\n".data)

/-- The short reference line sent instead of the text of a snippet
that was already seen. -/
def snippet_ref_line (snippet_id : PyStr) : PyStr :=
  ("### Snippet Reference: [".data) ++ snippet_id ++ ("] (previously loaded)".data)

/-- The per-lookup loop of build_step_prompt_treatment: record each
snippet in retrieval order and emit either the full two-part
embedding or the single reference line.  Each lookup is returned
with the answer of its record call and the parts it contributed. -/
def render_lookups (t : SnippetTracker) :
    List Snippet → List (Snippet × Bool × List PyStr) × SnippetTracker
  | [] => ([], t)
  | l :: ls =>
    let r := t.record l.snippet_id l.snippet_text
    let parts :=
      if r.1 then [snippet_header_line l, snippet_code_block l.snippet_text]
      else [snippet_ref_line l.snippet_id]
    let rest := render_lookups r.2 ls
    ((l, r.1, parts) :: rest.1, rest.2)

/-- The step labels used for prior outputs. -/
def STEP_LABELS : List PyStr := ["Planner".data, "Executor".data, "Verifier".data]

/-- A prior-step output bounded to 1500 characters with an ellipsis
marker when exceeded. -/
def bounded_output (out : PyStr) : PyStr :=
  if 1500 < out.length then out.take 1500 ++ ("...".data) else out

/-- The rendering of the i-th prior output in the prompt. -/
def prior_part (i : Nat) (out : PyStr) : PyStr :=
  let label :=
    if i < STEP_LABELS.length then STEP_LABELS.getD i []
    else ("Step ".data) ++ natRepr (i + 1)
  ("### ".data) ++ label ++ (" Output\n".data) ++ bounded_output out ++ ['\n']

/-- The fixed instruction text per step name, defaulting to the step
name itself for an unknown step. -/
def instruction_for (step_name : PyStr) : PyStr :=
  if step_name = ("planner".data) then
    ("Create a detailed analysis plan for this task. Identify what to examine.".data)
  else if step_name = ("executor".data) then
    ("Execute the analysis based on the plan. Document specific findings.".data)
  else if step_name = ("verifier".data) then
    ("Verify the findings and provide a summary with recommendations.".data)
  else step_name

/-- The ordered list of parts joined into the treatment prompt. -/
def treatment_prompt_parts (task_idx : Nat) (task_text step_name : PyStr)
    (lookups : List Snippet) (prior_outputs : List PyStr)
    (t : SnippetTracker) : List PyStr :=
  (("## Task ".data) ++ natRepr task_idx ++ (": ".data) ++ task_text) ::
  ((if lookups.isEmpty then [] else
      ("\n## Retrieved Code Snippets\n".data) ::
        ((render_lookups t lookups).1.map (fun p => p.2.2)).flatten) ++
   (if prior_outputs.isEmpty then [] else
      ("\n## Previous Analysis\n".data) ::
        prior_outputs.enum.map (fun p => prior_part p.1 p.2)) ++
   [("\n## Your Task: ".data) ++ pyTitle step_name ++ ['\n'] ++
      instruction_for step_name])

/-- Model of build_step_prompt_treatment: the newline-join of the
parts, together with the tracker state after the per-lookup loop. -/
def build_step_prompt_treatment (task_idx : Nat) (task_text step_name : PyStr)
    (lookups : List Snippet) (prior_outputs : List PyStr)
    (t : SnippetTracker) : PyStr × SnippetTracker :=
  (List.intercalate ['\n']
     (treatment_prompt_parts task_idx task_text step_name lookups prior_outputs t),
   (render_lookups t lookups).2)

/-- The avoided size computed in run_treatment before each step: the
token estimates of the lookups whose id the tracker has already
seen at the start of the step. -/
def step_avoided (t : SnippetTracker) (lookups : List Snippet) : Nat :=
  ((lookups.filter (fun l => (t.has_seen l.snippet_id).1)).map
    (fun l => l.token_estimate)).sum

/-- Modelled from the spec: the sum of size_estimate over the snippet
occurrences of one step for which record answered already seen. -/
def record_miss_sum (t : SnippetTracker) (lookups : List Snippet) : Nat :=
  (((render_lookups t lookups).1.filter (fun p => p.2.1 = false)).map
    (fun p => p.1.token_estimate)).sum

/-- The ordered step names of one task. -/
def STEP_NAMES : List PyStr := ["planner".data, "executor".data, "verifier".data]

/-- The per-task treatment loop of run_treatment, restricted to the
dedup state: before each step the avoided size is accumulated, then
the prompt build advances the tracker by recording every lookup. -/
def treatment_task_avoided (t : SnippetTracker) (lookups : List Snippet) :
    List PyStr → Nat × SnippetTracker
  | [] => (0, t)
  | _ :: steps =>
    let a := step_avoided t lookups
    let t' := (render_lookups t lookups).2
    let rest := treatment_task_avoided t' lookups steps
    (a + rest.1, rest.2)

/-- Modelled from the spec: the same per-task loop accumulating, for
each step, the size of the occurrences where record answered
already seen. -/
def treatment_task_miss_total (t : SnippetTracker) (lookups : List Snippet) :
    List PyStr → Nat × SnippetTracker
  | [] => (0, t)
  | _ :: steps =>
    let a := record_miss_sum t lookups
    let t' := (render_lookups t lookups).2
    let rest := treatment_task_miss_total t' lookups steps
    (a + rest.1, rest.2)

/-- The per-step measurement record returned by the backend adapter.
Optional keys of the Python metrics dict are Option fields. -/
structure StepMetrics where
  output_tokens : ℚ
  latency_ms : ℚ
  prefill_ms : ℚ
  decode_ms : ℚ
  prefill_tokens_computed : ℚ
  reused_tokens : Option ℚ
  energy_j : Option ℚ
deriving DecidableEq

/-- The accumulation of reused tokens in run_baseline and
run_treatment: an absent step value leaves the total untouched, a
present one is added to the total coerced from none to 0. -/
def acc_reused_tokens (acc step_reused : Option ℚ) : Option ℚ :=
  match step_reused with
  | none => acc
  | some v => some (acc.getD 0 + v)

/-- The whole-run reused-token total, starting from none. -/
def total_reused_tokens (steps : List StepMetrics) : Option ℚ :=
  steps.foldl (fun a m => acc_reused_tokens a m.reused_tokens) none

/-- The whole-run energy total: each step contributes
metrics.get of the energy key with default 0. -/
def total_energy_j (steps : List StepMetrics) : ℚ :=
  steps.foldl (fun a m => a + m.energy_j.getD 0) 0

/-- The fields of the baseline result dict consumed by the
compute-boundary diagnostic. -/
structure BaselineAgg where
  total_client_tokens : ℚ
  total_prefill_ms : ℚ
deriving DecidableEq

/-- The fields of the treatment result dict consumed by the
compute-boundary diagnostic.  The reused-token total is optional,
exactly as in the source where the dict holds None when the backend
never reported the metric. -/
structure TreatmentAgg where
  total_client_tokens : ℚ
  total_prefill_ms : ℚ
  total_reused_tokens : Option ℚ
  total_avoided_tokens : ℚ
deriving DecidableEq

/-- The whole-run token-reduction percentage with its zero-baseline
guard, from print_comparison. -/
def token_reduction_pct (b t : ℚ) : ℚ :=
  if 0 < b then (b - t) / b * 100 else 0

/-- The whole-run prefill-latency-reduction percentage with its
zero-baseline guard, from print_comparison. -/
def prefill_reduction_pct (b t : ℚ) : ℚ :=
  if 0 < b then (b - t) / b * 100 else 0

/-- The whole-run energy-savings percentage with its zero-baseline
guard, from print_comparison. -/
def energy_savings_pct (bE tE : ℚ) : ℚ :=
  if 0 < bE then (bE - tE) / bE * 100 else 0

/-- Model of delta_indicator restricted to its numbers: the absolute
difference and the percentage, the latter 0 when the old value is 0
(the string formatting and the emoji pick are not modelled). -/
def delta_indicator (old new : ℚ) : ℚ × ℚ :=
  (new - old, if old ≠ 0 then (new - old) / old * 100 else 0)

/-- The diagnostic labels printed by the compute-boundary block. -/
inductive Diagnostic
  | computeReuse
  | promptShrink
  | mixedSignal
  | noReuseDetected
deriving DecidableEq

/-- The if-elif chain of the compute-boundary diagnostic in
print_comparison: a known positive reused-token total wins
unconditionally; otherwise positive avoided tokens with the two
reduction percentages within 10 points of each other mean prompt
shrink, positive avoided tokens otherwise a mixed signal, and
everything else no detected reuse. -/
def classify_savings (reused : Option ℚ) (avoided : ℚ)
    (tokenRed prefillRed : ℚ) : Diagnostic :=
  let other :=
    if 0 < avoided ∧ |prefillRed - tokenRed| < 10 then Diagnostic.promptShrink
    else if 0 < avoided then Diagnostic.mixedSignal
    else Diagnostic.noReuseDetected
  match reused with
  | some v => if 0 < v then Diagnostic.computeReuse else other
  | none => other

/-- The diagnostic computed for one comparison run from the two
aggregates, with the percentage inputs computed under their
zero-baseline guards. -/
def compute_boundary_diagnostic (b : BaselineAgg) (t : TreatmentAgg) : Diagnostic :=
  classify_savings t.total_reused_tokens t.total_avoided_tokens
    (token_reduction_pct b.total_client_tokens t.total_client_tokens)
    (prefill_reduction_pct b.total_prefill_ms t.total_prefill_ms)

/-- The static task-to-queries catalog of get_predefined_lookups,
25 entries of 3 queries each, in source order. -/
def lookup_patterns : List (List PyStr) :=
  [ ["file:router.py".data, "func:route_ticket".data, "search:routing".data],
    ["file:scoring.py".data, "func:calculate_priority".data, "search:normalize".data],
    ["file:storage.py".data, "func:get_connection".data, "search:connection".data],
    ["search:validate".data, "func:validate_input".data, "file:validators.py".data],
    ["file:ticket.py".data, "class:Ticket".data, "search:state".data],
    ["search:except".data, "search:error".data, "func:handle_error".data],
    ["search:cache".data, "func:get_cached".data, "file:cache.py".data],
    ["search:log".data, "func:log_event".data, "file:logger.py".data],
    ["file:config.py".data, "search:secret".data, "func:load_config".data],
    ["file:api.py".data, "search:auth".data, "func:handle_request".data],
    ["search:rate".data, "func:check_rate_limit".data, "file:limiter.py".data],
    ["func:assign_ticket".data, "search:assign".data, "file:assignment.py".data],
    ["search:notify".data, "func:send_notification".data, "file:notify.py".data],
    ["func:search_tickets".data, "search:index".data, "file:search.py".data],
    ["search:attach".data, "func:upload_file".data, "file:attachments.py".data],
    ["search:session".data, "func:create_session".data, "file:session.py".data],
    ["search:audit".data, "func:log_audit".data, "file:audit.py".data],
    ["file:queue.py".data, "func:enqueue".data, "search:priority".data],
    ["search:escalat".data, "func:escalate_ticket".data, "file:escalation.py".data],
    ["search:sla".data, "func:check_sla".data, "file:sla.py".data],
    ["search:metric".data, "func:record_metric".data, "file:metrics.py".data],
    ["search:backup".data, "func:backup_data".data, "file:storage.py:1-100".data],
    ["search:http".data, "func:call_service".data, "file:client.py".data],
    ["search:permission".data, "func:check_permission".data, "class:User".data],
    ["file:__init__.py".data, "file:main.py".data, "search:import".data] ]

/-- Model of get_predefined_lookups: the catalog entry at position
(task_idx - 1) mod 25, with the Python modulo on ints. -/
def get_predefined_lookups (task_idx : Int) : List PyStr :=
  lookup_patterns.getD ((task_idx - 1) % (lookup_patterns.length : Int)).toNat []

/-- A sample snippet used to instantiate universally quantified
theorems at concrete inputs. -/
def sampleSnippetA : Snippet :=
  { snippet_id := "ida".data
    snippet_text := "text-a".data
    source_path := "a.py".data
    line_range := (1, 2)
    query := "file:a.py".data
    token_estimate := 7 }

/-- A second sample snippet with a different id and text. -/
def sampleSnippetB : Snippet :=
  { snippet_id := "idb".data
    snippet_text := "text-b".data
    source_path := "b.py".data
    line_range := (3, 9)
    query := "file:b.py".data
    token_estimate := 11 }

/-- A sample tracker that has already seen the id of sampleSnippetA. -/
def sampleTrackerSeenA : SnippetTracker :=
  { seen_ids := ["ida".data]
    snippets := [("ida".data, "text-a".data)]
    total_sent := 1
    reuse_hits := 0 }

/-- Sample step metrics with both optional metrics absent. -/
def sampleMetricsAbsent : StepMetrics :=
  { output_tokens := 10, latency_ms := 100, prefill_ms := 60, decode_ms := 40,
    prefill_tokens_computed := 50, reused_tokens := none, energy_j := none }

/-- Sample step metrics with both optional metrics reported as zero. -/
def sampleMetricsZero : StepMetrics :=
  { output_tokens := 10, latency_ms := 100, prefill_ms := 60, decode_ms := 40,
    prefill_tokens_computed := 50, reused_tokens := some 0, energy_j := some 0 }

/-- Sample step metrics with both optional metrics reported positive. -/
def sampleMetricsSome : StepMetrics :=
  { output_tokens := 10, latency_ms := 100, prefill_ms := 60, decode_ms := 40,
    prefill_tokens_computed := 50, reused_tokens := some 5, energy_j := some 3 }

/-- Sample baseline aggregate. -/
def sampleBaselineAgg : BaselineAgg :=
  { total_client_tokens := 1000, total_prefill_ms := 400 }

/-- Sample treatment aggregate with a known positive reused total but
zero avoided tokens and no size reduction. -/
def sampleTreatmentAgg : TreatmentAgg :=
  { total_client_tokens := 1000, total_prefill_ms := 400,
    total_reused_tokens := some 5, total_avoided_tokens := 0 }

/-- A long query of 2001 identical characters, used to exercise the
unknown-query placeholder branch of repo_lookup. -/
def longQuery : PyStr := List.replicate 2001 'x'

/-- A digest stub used to instantiate hash-parametric theorems. -/
def hashStub : PyStr → PyStr := fun t => t

/-- A regex oracle that never matches, used for concrete instances. -/
def rxStub : RegexOracle := { funcMatch := fun _ _ => none, classMatch := fun _ _ => none }

/-- A sample call sequence against the tracker. -/
def sampleOps : List TrackerOp :=
  [TrackerOp.record ("idb".data) ("text-b".data),
   TrackerOp.query ("ida".data),
   TrackerOp.record ("ida".data) ("text-a".data)]

/-- Membership answered by has_seen survives any record call. -/
theorem record_seen_preserved (t : SnippetTracker) (i s x : PyStr)
    (h : (t.has_seen x).1 = true) : (((t.record i s).2).has_seen x).1 = true := by
  have hx : x ∈ t.seen_ids := by simpa [SnippetTracker.has_seen] using h
  by_cases hi : i ∈ t.seen_ids <;>
    simp [SnippetTracker.has_seen, SnippetTracker.record, hi, hx]

/-- A record call of a different id does not change the has_seen
answer for this id. -/
theorem record_seen_ne (t : SnippetTracker) (i s x : PyStr) (hne : x ≠ i) :
    (((t.record i s).2).has_seen x).1 = (t.has_seen x).1 := by
  by_cases hi : i ∈ t.seen_ids <;>
    simp [SnippetTracker.has_seen, SnippetTracker.record, hi, hne]

/-- The new-snippet counter never decreases across a record call. -/
theorem record_total_sent_le (t : SnippetTracker) (i s : PyStr) :
    t.total_sent ≤ ((t.record i s).2).total_sent := by
  by_cases hi : i ∈ t.seen_ids <;> simp [SnippetTracker.record, hi]

/-- The reuse-hit counter never decreases across a record call. -/
theorem record_reuse_hits_le (t : SnippetTracker) (i s : PyStr) :
    t.reuse_hits ≤ ((t.record i s).2).reuse_hits := by
  by_cases hi : i ∈ t.seen_ids <;> simp [SnippetTracker.record, hi]

/-- Membership survives any single tracker call. -/
theorem applyOp_seen_preserved (t : SnippetTracker) (op : TrackerOp) (x : PyStr)
    (h : (t.has_seen x).1 = true) : ((applyOp t op).has_seen x).1 = true := by
  cases op with
  | record i s => exact record_seen_preserved t i s x h
  | query i => exact h

/-- The counters never decrease across a single tracker call. -/
theorem applyOp_counters_le (t : SnippetTracker) (op : TrackerOp) :
    t.total_sent ≤ (applyOp t op).total_sent ∧
    t.reuse_hits ≤ (applyOp t op).reuse_hits := by
  cases op with
  | record i s => exact ⟨record_total_sent_le t i s, record_reuse_hits_le t i s⟩
  | query i => exact ⟨le_refl _, le_refl _⟩

/-- Membership survives any sequence of tracker calls. -/
theorem run_ops_seen_preserved (ops : List TrackerOp) (t : SnippetTracker) (x : PyStr)
    (h : (t.has_seen x).1 = true) : ((run_ops t ops).has_seen x).1 = true := by
  induction ops generalizing t with
  | nil => exact h
  | cons op rest ih => exact ih (applyOp t op) (applyOp_seen_preserved t op x h)

/-- The counters never decrease across a sequence of tracker calls. -/
theorem run_ops_counters_le (ops : List TrackerOp) (t : SnippetTracker) :
    t.total_sent ≤ (run_ops t ops).total_sent ∧
    t.reuse_hits ≤ (run_ops t ops).reuse_hits := by
  induction ops generalizing t with
  | nil => exact ⟨le_refl _, le_refl _⟩
  | cons op rest ih =>
    have h1 := applyOp_counters_le t op
    have h2 := ih (applyOp t op)
    exact ⟨le_trans h1.1 h2.1, le_trans h1.2 h2.2⟩

/-- C3: has_seen is a pure membership query returning its receiver
unchanged, and record answers true and inserts the id, stores the
text and bumps the new-snippet counter on an unseen id, while it
answers false and bumps only the reuse-hit counter on a seen id. -/
theorem tracker_has_seen_pure_record_transitions (t : SnippetTracker) (i s : PyStr) :
    (t.has_seen i).2 = t ∧
    (t.has_seen i).1 = decide (i ∈ t.seen_ids) ∧
    ((t.has_seen i).1 = false →
      t.record i s = (true,
        { seen_ids := t.seen_ids ++ [i]
          snippets := t.snippets ++ [(i, s)]
          total_sent := t.total_sent + 1
          reuse_hits := t.reuse_hits })) ∧
    ((t.has_seen i).1 = true →
      t.record i s = (false, { t with reuse_hits := t.reuse_hits + 1 })) := by
  refine ⟨rfl, rfl, ?_, ?_⟩ <;> intro h <;>
    simp [SnippetTracker.has_seen] at h <;>
    simp [SnippetTracker.record, h]

/-- Witness for the C3 theorem at a concrete tracker and id. -/
theorem tracker_has_seen_pure_record_transitions_witness :
    (sampleTrackerSeenA.has_seen ("idb".data)).1 = false ∧
    sampleTrackerSeenA.record ("idb".data) ("text-b".data) = (true,
      { seen_ids := sampleTrackerSeenA.seen_ids ++ [("idb".data)]
        snippets := sampleTrackerSeenA.snippets ++ [(("idb".data), ("text-b".data))]
        total_sent := sampleTrackerSeenA.total_sent + 1
        reuse_hits := sampleTrackerSeenA.reuse_hits }) :=
  ⟨by decide,
   (tracker_has_seen_pure_record_transitions sampleTrackerSeenA ("idb".data)
      ("text-b".data)).2.2.1 (by decide)⟩

/-- C4: within one session the seen-set is append-only: an id the
tracker has seen stays seen across any further sequence of record
and has_seen calls, and neither counter ever decreases. -/
theorem tracker_seen_set_append_only (t : SnippetTracker) (ops : List TrackerOp) (x : PyStr) :
    ((t.has_seen x).1 = true → ((run_ops t ops).has_seen x).1 = true) ∧
    t.total_sent ≤ (run_ops t ops).total_sent ∧
    t.reuse_hits ≤ (run_ops t ops).reuse_hits :=
  ⟨run_ops_seen_preserved ops t x, (run_ops_counters_le ops t).1,
   (run_ops_counters_le ops t).2⟩

/-- Witness for the C4 theorem at a concrete tracker and sequence. -/
theorem tracker_seen_set_append_only_witness :
    (sampleTrackerSeenA.has_seen ("ida".data)).1 = true ∧
    ((run_ops sampleTrackerSeenA sampleOps).has_seen ("ida".data)).1 = true :=
  ⟨by decide,
   (tracker_seen_set_append_only sampleTrackerSeenA sampleOps ("ida".data)).1 (by decide)⟩

/-- Non-record calls leave both counters unchanged. -/
theorem run_ops_no_record_counters (ops : List TrackerOp) (t : SnippetTracker)
    (h : ∀ op ∈ ops, op.isRecordOp = false) :
    (run_ops t ops).total_sent = t.total_sent ∧
    (run_ops t ops).reuse_hits = t.reuse_hits := by
  induction ops generalizing t with
  | nil => exact ⟨rfl, rfl⟩
  | cons op rest ih =>
    cases op with
    | record i s => exact absurd (h _ (List.mem_cons_self _ _)) (by simp [TrackerOp.isRecordOp])
    | query i => exact ih t (fun o ho => h o (List.mem_cons_of_mem _ ho))

/-- C8: every degenerate-denominator ratio is a defined zero: the
reuse rate of a tracker that has served no record call is 0, and
each whole-run percentage (the delta-indicator percentage, token
reduction, prefill reduction, energy savings) is 0 when its baseline
denominator is 0. -/
theorem zero_safety_ratios :
    (∀ ops : List TrackerOp, (∀ op ∈ ops, op.isRecordOp = false) →
      (run_ops SnippetTracker.init ops).get_reuse_rate = 0) ∧
    (∀ q : ℚ, (delta_indicator 0 q).2 = 0) ∧
    (∀ q : ℚ, token_reduction_pct 0 q = 0) ∧
    (∀ q : ℚ, prefill_reduction_pct 0 q = 0) ∧
    (∀ q : ℚ, energy_savings_pct 0 q = 0) := by
  refine ⟨?_, ?_, ?_, ?_, ?_⟩
  · intro ops h
    have hc := run_ops_no_record_counters ops SnippetTracker.init h
    have h1 : (run_ops SnippetTracker.init ops).total_sent = 0 := hc.1
    have h2 : (run_ops SnippetTracker.init ops).reuse_hits = 0 := hc.2
    simp [SnippetTracker.get_reuse_rate, h1, h2]
  · intro q; simp [delta_indicator]
  · intro q; simp [token_reduction_pct]
  · intro q; simp [prefill_reduction_pct]
  · intro q; simp [energy_savings_pct]

/-- Witness for the C8 theorem at a concrete call sequence and
concrete percentage inputs. -/
theorem zero_safety_ratios_witness :
    (∀ op ∈ [TrackerOp.query ("ida".data)], op.isRecordOp = false) ∧
    (run_ops SnippetTracker.init [TrackerOp.query ("ida".data)]).get_reuse_rate = 0 ∧
    (delta_indicator 0 7).2 = 0 ∧ token_reduction_pct 0 3 = 0 ∧
    prefill_reduction_pct 0 4 = 0 ∧ energy_savings_pct 0 5 = 0 :=
  ⟨by decide, zero_safety_ratios.1 _ (by decide), zero_safety_ratios.2.1 7,
   zero_safety_ratios.2.2.1 3, zero_safety_ratios.2.2.2.1 4,
   zero_safety_ratios.2.2.2.2 5⟩

/-- A fenced code block is never equal to a reference line: the two
renderings start with different characters. -/
theorem code_block_ne_ref_line (a b : PyStr) :
    snippet_code_block a ≠ snippet_ref_line b := by
  intro h
  have h2 : (snippet_code_block a).head? = (snippet_ref_line b).head? := congrArg _ h
  have e1 : (snippet_code_block a).head? = some '`' := rfl
  have e2 : (snippet_ref_line b).head? = some '#' := rfl
  rw [e1, e2] at h2
  exact absurd h2 (by decide)

/-- Membership answered by has_seen survives the whole per-lookup
recording loop of the treatment prompt build. -/
theorem render_lookups_seen_preserved (ls : List Snippet) (t : SnippetTracker) (x : PyStr)
    (h : (t.has_seen x).1 = true) : (((render_lookups t ls).2).has_seen x).1 = true := by
  induction ls generalizing t with
  | nil => exact h
  | cons l tail ih =>
    exact ih ((t.record l.snippet_id l.snippet_text).2)
      (record_seen_preserved t l.snippet_id l.snippet_text x h)

/-- The lookups of the rendered list are the input lookups in order. -/
theorem render_lookups_fst (t : SnippetTracker) (ls : List Snippet) :
    ((render_lookups t ls).1).map (fun p => p.1) = ls := by
  induction ls generalizing t with
  | nil => rfl
  | cons l tail ih => simp [render_lookups, ih]

/-- C2: in reference mode, every snippet identifier the tracker has
already seen at the start of a step is rendered as the single short
reference line carrying the id and the previously-loaded marker,
never as its full-text embedding, and this reference line is a part
of the assembled step prompt whenever a lookup carries the id. -/
theorem reference_mode_never_reembeds (t : SnippetTracker) (ls : List Snippet) (x : PyStr)
    (task_idx : Nat) (task_text step_name : PyStr) (prior_outputs : List PyStr)
    (hseen : (t.has_seen x).1 = true) :
    (∀ p ∈ (render_lookups t ls).1, p.1.snippet_id = x →
      p.2.1 = false ∧ p.2.2 = [snippet_ref_line x] ∧
        snippet_code_block p.1.snippet_text ∉ p.2.2) ∧
    (∀ l ∈ ls, l.snippet_id = x →
      snippet_ref_line x ∈
        treatment_prompt_parts task_idx task_text step_name ls prior_outputs t) := by
  have main : ∀ (ls' : List Snippet) (t' : SnippetTracker),
      (t'.has_seen x).1 = true →
      ∀ p ∈ (render_lookups t' ls').1, p.1.snippet_id = x →
        p.2.1 = false ∧ p.2.2 = [snippet_ref_line x] ∧
          snippet_code_block p.1.snippet_text ∉ p.2.2 := by
    intro ls'
    induction ls' with
    | nil => intro t' _ p hp; simp [render_lookups] at hp
    | cons l tail ih =>
      intro t' hs p hp hid
      simp only [render_lookups] at hp
      rcases List.mem_cons.mp hp with hhead | htail
      · subst hhead
        have hid' : l.snippet_id = x := hid
        have hx : l.snippet_id ∈ t'.seen_ids := by
          rw [hid']
          simpa [SnippetTracker.has_seen] using hs
        have hx' : x ∈ t'.seen_ids := hid' ▸ hx
        refine ⟨?_, ?_, ?_⟩
        · simp [SnippetTracker.record, hid', hx']
        · simp [SnippetTracker.record, hid', hx']
        · simp [SnippetTracker.record, hid', hx', code_block_ne_ref_line]
      · exact ih ((t'.record l.snippet_id l.snippet_text).2)
          (record_seen_preserved t' l.snippet_id l.snippet_text x hs) p htail hid
  refine ⟨main ls t hseen, ?_⟩
  intro l hl hid
  obtain ⟨p, hp, hfst⟩ : ∃ p ∈ (render_lookups t ls).1, p.1 = l := by
    have hmap := render_lookups_fst t ls
    rw [← hmap] at hl
    rcases List.mem_map.mp hl with ⟨p, hp, hpe⟩
    exact ⟨p, hp, hpe⟩
  have hparts := main ls t hseen p hp (by rw [hfst, hid])
  have hne : ls.isEmpty = false := by
    cases ls with
    | nil => cases hl
    | cons a tail => rfl
  have hmem : snippet_ref_line x ∈ ((render_lookups t ls).1.map (fun p => p.2.2)).flatten :=
    List.mem_flatten.mpr ⟨p.2.2, List.mem_map_of_mem _ hp,
      by rw [hparts.2.1]; exact List.mem_singleton_self _⟩
  refine List.mem_cons_of_mem _ (List.mem_append_left _ (List.mem_append_left _ ?_))
  rw [hne]
  exact List.mem_cons_of_mem _ hmem

/-- Witness for the C2 theorem: a tracker that has seen the sample id
renders the sample lookup as the bare reference line. -/
theorem reference_mode_never_reembeds_witness :
    (sampleTrackerSeenA.has_seen ("ida".data)).1 = true ∧
    ((render_lookups sampleTrackerSeenA [sampleSnippetA]).1.headD
        (sampleSnippetA, true, [])).2.2 = [snippet_ref_line ("ida".data)] :=
  ⟨by decide,
   ((reference_mode_never_reembeds sampleTrackerSeenA [sampleSnippetA] ("ida".data)
        1 [] [] [] (by decide)).1
      ((render_lookups sampleTrackerSeenA [sampleSnippetA]).1.headD
        (sampleSnippetA, true, []))
      (by decide) (by decide)).2.1⟩

/-- C6: a known positive backend-reported reused-token total forces
the compute-reuse diagnostic, whatever the avoided-token count and
the two reduction percentages are. -/
theorem reused_tokens_positive_forces_compute_reuse (b : BaselineAgg) (t : TreatmentAgg)
    (v : ℚ) (hv : t.total_reused_tokens = some v) (hpos : 0 < v) :
    compute_boundary_diagnostic b t = Diagnostic.computeReuse := by
  simp [compute_boundary_diagnostic, classify_savings, hv, hpos]

/-- Witness for the C6 theorem at concrete aggregates. -/
theorem reused_tokens_positive_forces_compute_reuse_witness :
    sampleTreatmentAgg.total_reused_tokens = some 5 ∧ (0 : ℚ) < 5 ∧
    compute_boundary_diagnostic sampleBaselineAgg sampleTreatmentAgg =
      Diagnostic.computeReuse :=
  ⟨rfl, by norm_num,
   reused_tokens_positive_forces_compute_reuse sampleBaselineAgg sampleTreatmentAgg 5
     rfl (by norm_num)⟩

/-- Folding the energy accumulation from any start adds the sum of
the per-step defaulted contributions. -/
theorem foldl_energy_from (steps : List StepMetrics) (a : ℚ) :
    steps.foldl (fun x m => x + m.energy_j.getD 0) a =
      a + (steps.map (fun m => m.energy_j.getD 0)).sum := by
  induction steps generalizing a with
  | nil => simp
  | cons m tail ih => simp [ih, add_assoc]

/-- Folding the reused-token accumulation from a known start yields a
known total: the start plus the defaulted per-step contributions. -/
theorem foldl_reused_from_some (steps : List StepMetrics) (a : ℚ) :
    steps.foldl (fun x m => acc_reused_tokens x m.reused_tokens) (some a) =
      some (a + (steps.map (fun m => m.reused_tokens.getD 0)).sum) := by
  induction steps generalizing a with
  | nil => simp
  | cons m tail ih =>
    rw [List.foldl_cons]
    cases h : m.reused_tokens with
    | none =>
      rw [show acc_reused_tokens (some a) none = some a from rfl, ih]
      simp [h]
    | some v =>
      rw [show acc_reused_tokens (some a) (some v) = some (a + v) from rfl, ih]
      simp [h, add_assoc]

/-- C7 counterexample: a step metrics record with an absent energy
estimate aggregates to the defined number 0, indistinguishable from
a backend-reported energy of 0, so the absence is defaulted to zero
rather than propagated as unknown; the reused-token total of a run
with one reporting step and one absent step is likewise a known sum
rather than unknown. -/
theorem optional_metrics_unknown_counterexample :
    sampleMetricsAbsent.energy_j = none ∧
    sampleMetricsZero.energy_j = some 0 ∧
    total_energy_j [sampleMetricsAbsent] = 0 ∧
    total_energy_j [sampleMetricsAbsent] = total_energy_j [sampleMetricsZero] ∧
    total_reused_tokens [sampleMetricsSome, sampleMetricsAbsent] = some 5 := by
  refine ⟨rfl, rfl, ?_, ?_, ?_⟩ <;>
    norm_num [total_energy_j, total_reused_tokens, acc_reused_tokens,
      sampleMetricsAbsent, sampleMetricsZero, sampleMetricsSome]

/-- C7 as amended: the reused-token total is propagated as unknown
exactly when the metric is absent from every step, and is otherwise
the sum over the steps that report it; the energy total always
defaults an absent per-step estimate to 0. -/
theorem optional_metrics_propagation_amended (steps : List StepMetrics) :
    ((∀ m ∈ steps, m.reused_tokens = none) → total_reused_tokens steps = none) ∧
    ((∃ m ∈ steps, m.reused_tokens ≠ none) →
      total_reused_tokens steps =
        some ((steps.map (fun m => m.reused_tokens.getD 0)).sum)) ∧
    total_energy_j steps = (steps.map (fun m => m.energy_j.getD 0)).sum := by
  refine ⟨?_, ?_, ?_⟩
  · intro h
    induction steps with
    | nil => rfl
    | cons m tail ih =>
      have hm : m.reused_tokens = none := h m (List.mem_cons_self _ _)
      have := ih (fun m' hm' => h m' (List.mem_cons_of_mem _ hm'))
      simpa [total_reused_tokens, acc_reused_tokens, hm] using this
  · intro hex
    induction steps with
    | nil => rcases hex with ⟨m, hm, _⟩; cases hm
    | cons m tail ih =>
      cases h : m.reused_tokens with
      | some v =>
        have : total_reused_tokens (m :: tail) =
            tail.foldl (fun x mm => acc_reused_tokens x mm.reused_tokens) (some (0 + v)) := by
          simp [total_reused_tokens, acc_reused_tokens, h]
        rw [this, foldl_reused_from_some]
        simp [h, add_assoc]
      | none =>
        rcases hex with ⟨m', hm', hne⟩
        rcases List.mem_cons.mp hm' with he | ht
        · subst he; exact absurd h hne
        · have := ih ⟨m', ht, hne⟩
          have e1 : total_reused_tokens (m :: tail) = total_reused_tokens tail := by
            simp [total_reused_tokens, acc_reused_tokens, h]
          rw [e1, this]
          simp [h]
  · have := foldl_energy_from steps 0
    simpa [total_energy_j] using this

/-- Witness for the amended C7 theorem at concrete step lists. -/
theorem optional_metrics_propagation_amended_witness :
    (∀ m ∈ [sampleMetricsAbsent], m.reused_tokens = none) ∧
    total_reused_tokens [sampleMetricsAbsent] = none ∧
    (∃ m ∈ [sampleMetricsSome, sampleMetricsAbsent], m.reused_tokens ≠ none) ∧
    total_reused_tokens [sampleMetricsSome, sampleMetricsAbsent] =
      some (([sampleMetricsSome, sampleMetricsAbsent].map
        (fun m => m.reused_tokens.getD 0)).sum) :=
  ⟨by decide, (optional_metrics_propagation_amended [sampleMetricsAbsent]).1 (by decide),
   ⟨sampleMetricsSome, by decide⟩,
   (optional_metrics_propagation_amended [sampleMetricsSome, sampleMetricsAbsent]).2.1
     ⟨sampleMetricsSome, by decide⟩⟩

/-- C10: get_predefined_lookups indexes the 25-entry catalog at
position (i - 1) mod 25, so task indices beyond 25 wrap around to
the query lists of tasks 1 through 25. -/
theorem predefined_lookups_wrap_around (i : Int) (h : 1 ≤ i) :
    get_predefined_lookups i = lookup_patterns.getD (((i - 1) % 25).toNat) [] ∧
    get_predefined_lookups (i + 25) = get_predefined_lookups i ∧
    lookup_patterns.length = 25 := by
  have hlen : lookup_patterns.length = 25 := rfl
  refine ⟨?_, ?_, hlen⟩
  · simp [get_predefined_lookups, hlen]
  · have hidx : ((i + 25 - 1) % (25 : Int)).toNat = ((i - 1) % (25 : Int)).toNat := by
      omega
    simp only [get_predefined_lookups, hlen, Nat.cast_ofNat]
    rw [hidx]

/-- Witness for the C10 theorem at a task index beyond the catalog. -/
theorem predefined_lookups_wrap_around_witness :
    (1 : Int) ≤ 30 ∧ get_predefined_lookups (30 + 25) = get_predefined_lookups 30 :=
  ⟨by norm_num, (predefined_lookups_wrap_around 30 (by norm_num)).2.1⟩

/-- Unfolding the per-step avoided size over the first lookup. -/
theorem step_avoided_cons (t : SnippetTracker) (l : Snippet) (tail : List Snippet) :
    step_avoided t (l :: tail) =
      (if (t.has_seen l.snippet_id).1 then l.token_estimate else 0) +
        step_avoided t tail := by
  by_cases hmem : l.snippet_id ∈ t.seen_ids <;>
    simp [step_avoided, List.filter_cons, SnippetTracker.has_seen, hmem]

/-- Unfolding the per-step record-returned-seen sum over the first
lookup: the head contributes exactly when its id is already seen,
and the tail is accounted against the tracker after the record. -/
theorem record_miss_sum_cons (t : SnippetTracker) (l : Snippet) (tail : List Snippet) :
    record_miss_sum t (l :: tail) =
      (if (t.has_seen l.snippet_id).1 then l.token_estimate else 0) +
        record_miss_sum ((t.record l.snippet_id l.snippet_text).2) tail := by
  by_cases hmem : l.snippet_id ∈ t.seen_ids <;>
    simp [record_miss_sum, render_lookups, SnippetTracker.record,
      SnippetTracker.has_seen, hmem]

/-- For a step whose lookups carry pairwise distinct ids, the avoided
size computed from has_seen at the start of the step equals the sum
over occurrences where record answered already seen. -/
theorem step_avoided_eq_record_miss (ls : List Snippet) (t : SnippetTracker)
    (h : (ls.map (fun l => l.snippet_id)).Nodup) :
    step_avoided t ls = record_miss_sum t ls := by
  induction ls generalizing t with
  | nil => rfl
  | cons l tail ih =>
    rw [List.map_cons, List.nodup_cons] at h
    have hcongr : step_avoided ((t.record l.snippet_id l.snippet_text).2) tail =
        step_avoided t tail := by
      unfold step_avoided
      rw [List.filter_congr ?_]
      intro a ha
      refine record_seen_ne t _ _ _ ?_
      intro heq
      exact h.1 (heq ▸ List.mem_map_of_mem _ ha)
    rw [step_avoided_cons, record_miss_sum_cons, ← ih _ h.2, hcongr]

/-- The two per-task folds advance the tracker identically. -/
theorem treatment_task_eq (steps : List PyStr) (t : SnippetTracker) (lookups : List Snippet)
    (h : (lookups.map (fun l => l.snippet_id)).Nodup) :
    treatment_task_avoided t lookups steps = treatment_task_miss_total t lookups steps := by
  induction steps generalizing t with
  | nil => rfl
  | cons s rest ih =>
    simp only [treatment_task_avoided, treatment_task_miss_total]
    rw [step_avoided_eq_record_miss lookups t h, ih]

/-- C5: for every task of a reference-mode run whose lookups carry
pairwise distinct snippet ids, the avoided size accumulated over the
3 steps of the task equals the sum of token_estimate over the
occurrences at those steps for which record answered already seen. -/
theorem avoided_size_conservation (t : SnippetTracker) (lookups : List Snippet)
    (h : (lookups.map (fun l => l.snippet_id)).Nodup) :
    (treatment_task_avoided t lookups STEP_NAMES).1 =
      (treatment_task_miss_total t lookups STEP_NAMES).1 :=
  congrArg Prod.fst (treatment_task_eq STEP_NAMES t lookups h)

/-- Witness for the C5 theorem at a fresh tracker and two lookups
with distinct ids. -/
theorem avoided_size_conservation_witness :
    (([sampleSnippetA, sampleSnippetB].map (fun l => l.snippet_id)).Nodup) ∧
    (treatment_task_avoided SnippetTracker.init [sampleSnippetA, sampleSnippetB]
        STEP_NAMES).1 =
      (treatment_task_miss_total SnippetTracker.init [sampleSnippetA, sampleSnippetB]
        STEP_NAMES).1 :=
  ⟨by decide,
   avoided_size_conservation SnippetTracker.init [sampleSnippetA, sampleSnippetB]
     (by decide)⟩

/-- C1: repo_lookup computes the snippet id as the content hash of
the final, truncated snippet text, never of the query string, so two
queries resolving to byte-identical text collapse to one id. -/
theorem repo_lookup_snippet_id_is_content_hash (sha256hex : PyStr → PyStr)
    (rx : RegexOracle) (fs : RepoFS) (q1 q2 : PyStr) :
    (repo_lookup sha256hex rx fs q1).snippet_id =
      get_snippet_id sha256hex (repo_lookup sha256hex rx fs q1).snippet_text ∧
    ((repo_lookup sha256hex rx fs q1).snippet_text =
        (repo_lookup sha256hex rx fs q2).snippet_text →
      (repo_lookup sha256hex rx fs q1).snippet_id =
        (repo_lookup sha256hex rx fs q2).snippet_id) := by
  have key : ∀ q : PyStr, (repo_lookup sha256hex rx fs q).snippet_id =
      get_snippet_id sha256hex (repo_lookup sha256hex rx fs q).snippet_text := by
    intro q
    simp only [repo_lookup]
    repeat' split
    all_goals rfl
  exact ⟨key q1, fun h => by rw [key q1, key q2, h]⟩

/-- Witness for the C1 theorem: two distinct not-found function
queries resolving to the identical placeholder text share the id. -/
theorem repo_lookup_snippet_id_is_content_hash_witness :
    (repo_lookup hashStub rxStub [] ("func:x".data)).snippet_text =
      (repo_lookup hashStub rxStub [] ("func: x".data)).snippet_text ∧
    (repo_lookup hashStub rxStub [] ("func:x".data)).snippet_id =
      (repo_lookup hashStub rxStub [] ("func: x".data)).snippet_id :=
  ⟨by decide,
   (repo_lookup_snippet_id_is_content_hash hashStub rxStub [] ("func:x".data)
      ("func: x".data)).2 (by decide)⟩

/-- Stripping never lengthens a string. -/
theorem pyStrip_length_le (s : PyStr) : (pyStrip s).length ≤ s.length := by
  unfold pyStrip
  rw [List.length_reverse]
  calc ((s.dropWhile pyIsSpace).reverse.dropWhile pyIsSpace).length
      ≤ (s.dropWhile pyIsSpace).reverse.length := (List.dropWhile_sublist _).length_le
    _ = (s.dropWhile pyIsSpace).length := List.length_reverse _
    _ ≤ s.length := (List.dropWhile_sublist _).length_le

/-- The first segment of a split never exceeds the input length. -/
theorem splitOnChar_headD_length_le (c : Char) (s : PyStr) :
    ((splitOnChar c s).headD []).length ≤ s.length := by
  induction s with
  | nil => simp [splitOnChar]
  | cons a rest ih =>
    simp only [splitOnChar]
    by_cases hac : a = c
    · simp [hac]
    · rw [if_neg hac]
      cases hs : splitOnChar c rest with
      | nil => simp
      | cons seg segs =>
        have hih := ih
        rw [hs, List.headD_cons] at hih
        simp only [List.headD_cons, List.length_cons]
        omega

/-- The text of a successful function extraction is truncated. -/
theorem extract_function_bound (m : PyStr → PyStr → Option (PyStr × Nat)) (c n : PyStr)
    (r : PyStr × Nat × Nat) (h : extract_function m c n = some r) :
    r.1.length ≤ MAX_SNIPPET_SIZE := by
  unfold extract_function at h
  cases hm : m c n with
  | none => rw [hm] at h; cases h
  | some g =>
    obtain ⟨gt, off⟩ := g
    rw [hm] at h
    have hr := Option.some.inj h
    rw [← hr]
    exact List.length_take_le _ _

/-- The text of a successful class extraction is truncated. -/
theorem extract_class_bound (m : PyStr → PyStr → Option (PyStr × Nat)) (c n : PyStr)
    (r : PyStr × Nat × Nat) (h : extract_class m c n = some r) :
    r.1.length ≤ MAX_SNIPPET_SIZE := by
  unfold extract_class at h
  cases hm : m c n with
  | none => rw [hm] at h; cases h
  | some g =>
    obtain ⟨gt, off⟩ := g
    rw [hm] at h
    have hr := Option.some.inj h
    rw [← hr]
    exact List.length_take_le _ _

/-- The text found by the scan over the python files is bounded
whenever every extractor success is bounded. -/
theorem find_extract_bound (files : List RepoFile)
    (ex : PyStr → Option (PyStr × Nat × Nat))
    (hex : ∀ c r, ex c = some r → r.1.length ≤ MAX_SNIPPET_SIZE) :
    ∀ p txt s e, find_extract files ex = some (p, txt, s, e) →
      txt.length ≤ MAX_SNIPPET_SIZE := by
  induction files with
  | nil => intro p txt s e h; simp [find_extract] at h
  | cons f rest ih =>
    intro p txt s e h
    simp only [find_extract] at h
    cases hc : ex f.content with
    | some r =>
      obtain ⟨txt', s', e'⟩ := r
      rw [hc] at h
      have hr := Option.some.inj h
      have hb := hex f.content (txt', s', e') hc
      have : txt' = txt := congrArg (fun z => z.2.1) hr
      rw [← this]
      exact hb
    | none =>
      rw [hc] at h
      exact ih p txt s e h

/-- A placeholder of prefix length at most 24 over a remainder no
longer than the stripped query is inside the amended bound. -/
theorem placeholder_bound (p rest q : PyStr) (hp : p.length ≤ 24)
    (hrest : rest.length ≤ (pyStrip q).length) :
    (p ++ rest).length ≤ max MAX_SNIPPET_SIZE ((pyStrip q).length + 24) := by
  refine le_max_of_le_right ?_
  rw [List.length_append]
  omega

/-- A truncated text is inside the amended bound. -/
theorem take_bound (l q : PyStr) :
    (l.take MAX_SNIPPET_SIZE).length ≤ max MAX_SNIPPET_SIZE ((pyStrip q).length + 24) :=
  le_max_of_le_left (List.length_take_le _ _)

/-- Stripping a suffix of the stripped query stays within its length. -/
theorem strip_drop_le (q : PyStr) (n : Nat) :
    (pyStrip ((pyStrip q).drop n)).length ≤ (pyStrip q).length :=
  le_trans (pyStrip_length_le _) (by rw [List.length_drop]; omega)

/-- C9 as amended: the snippet text returned by repo_lookup is
bounded by the maximum of MAX_SNIPPET_SIZE and the stripped query
length plus 24: all text extracted from repository content is
truncated at MAX_SNIPPET_SIZE, while the not-found and
unknown-query placeholders are a fixed prefix of at most 24
characters followed by a query-derived name and are not truncated. -/
theorem snippet_text_length_bound (sha256hex : PyStr → PyStr) (rx : RegexOracle)
    (fs : RepoFS) (q : PyStr) :
    (repo_lookup sha256hex rx fs q).snippet_text.length ≤
      max MAX_SNIPPET_SIZE ((pyStrip q).length + 24) := by
  simp only [repo_lookup]
  split
  · -- file branch
    split
    · -- file not found
      refine placeholder_bound _ _ _ ?_ ?_
      · decide
      · exact le_trans (splitOnChar_headD_length_le _ _) (by rw [List.length_drop]; omega)
    · -- file found
      simp only [mk_result]
      split
      · split
        · split
          · simp only [extract_lines]
            exact take_bound _ _
          · exact take_bound _ _
        · exact take_bound _ _
      · exact take_bound _ _
  · split
    · -- func branch
      split
      · rename_i fpath txt s e heq
        simp only [mk_result]
        refine le_max_of_le_left ?_
        exact find_extract_bound _ _ (fun c r h => extract_function_bound _ c _ r h)
          fpath txt s e heq
      · simp only [mk_result]
        refine placeholder_bound _ _ _ ?_ (strip_drop_le q 5)
        decide
    · split
      · -- class branch
        split
        · rename_i fpath txt s e heq
          simp only [mk_result]
          refine le_max_of_le_left ?_
          exact find_extract_bound _ _ (fun c r h => extract_class_bound _ c _ r h)
            fpath txt s e heq
        · simp only [mk_result]
          refine placeholder_bound _ _ _ ?_ (strip_drop_le q 6)
          decide
      · split
        · -- search branch
          split
          · -- no matches
            simp only [mk_result]
            refine placeholder_bound _ _ _ ?_ ?_
            · decide
            · rw [show (pyLower (pyStrip ((pyStrip q).drop 7))).length =
                  (pyStrip ((pyStrip q).drop 7)).length from List.length_map _ _]
              exact strip_drop_le q 7
          · simp only [mk_result]
            exact take_bound _ _
        · -- unknown query format
          simp only [mk_result]
          refine placeholder_bound _ _ _ ?_ (le_refl _)
          decide

/-- Stripping a run of a non-space character changes nothing. -/
theorem pyStrip_replicate_x (n : Nat) :
    pyStrip (List.replicate n 'x') = List.replicate n 'x' := by
  have hdrop : ∀ m : Nat,
      (List.replicate m 'x').dropWhile pyIsSpace = List.replicate m 'x' := by
    intro m
    cases m with
    | zero => rfl
    | succ k =>
      have hx : pyIsSpace 'x' = false := by decide
      rw [List.replicate_succ, List.dropWhile_cons, hx]
      simp [List.replicate_succ]
  unfold pyStrip
  rw [hdrop, List.reverse_replicate, hdrop, List.reverse_replicate]

/-- C9 counterexample: a 2001-character unknown-format query makes
repo_lookup return a placeholder text of 2025 characters, exceeding
MAX_SNIPPET_SIZE, because placeholder texts are not truncated. -/
theorem snippet_text_bound_counterexample :
    MAX_SNIPPET_SIZE < (repo_lookup hashStub rxStub [] longQuery).snippet_text.length := by
  have hq : pyStrip longQuery = longQuery := pyStrip_replicate_x 2001
  have hrep : longQuery = 'x' :: List.replicate 2000 'x' := by
    rw [longQuery, show (2001 : Nat) = 2000 + 1 from rfl, List.replicate_succ]
  have c1 : pyStartsWith ("file:".data) (pyStrip longQuery) = false := by
    rw [hq, hrep]; decide
  have c2 : pyStartsWith ("func:".data) (pyStrip longQuery) = false := by
    rw [hq, hrep]; decide
  have c3 : pyStartsWith ("class:".data) (pyStrip longQuery) = false := by
    rw [hq, hrep]; decide
  have c4 : pyStartsWith ("search:".data) (pyStrip longQuery) = false := by
    rw [hq, hrep]; decide
  have htext : (repo_lookup hashStub rxStub [] longQuery).snippet_text =
      ("# Unknown query format: ".data) ++ pyStrip longQuery := by
    simp only [repo_lookup]
    rw [c1, c2, c3, c4]
    rfl
  rw [htext, hq, List.length_append]
  have h1 : ("# Unknown query format: ".data).length = 24 := by decide
  have h2 : longQuery.length = 2001 := by
    rw [longQuery]
    exact List.length_replicate 2001 'x'
  rw [h1, h2]
  decide

end RetrievalBench
